import Mathlib

/-!
Shallow embedding of the goline repository (a LINE Login client library and
HTTP authorization middleware) and proofs about its specification claims.

The repository contains two snapshots of the same component:
* `client.go` / `part_001` — package `goline`: a `Client` with three remote
  operations (`VerifyIDToken`, `VerifyAccessToken`, `GetProfile`) and an
  `Authorizer` exposing `VerifyIDTokenMiddleware` / `VerifyAccessTokenMiddleware`.
* `authorizer.go` — package `auth` (historic variant): `LINEAuthorizer` with the
  same two middlewares, differing in rejection status codes and in performing a
  client-id comparison on the access-token path.

Go strings are modelled as Lean `String` (a wrapper around `List Char`);
machine-level details (UTF-8 byte offsets) are irrelevant here because the code
only compares, concatenates and splits on exact substrings.
-/

/-! ## Go-level error values

`errors.New`/`fmt.Errorf` messages, the five sentinel provider errors, the
json.Unmarshal failure on a 200 body, and transport-level (`http.Client.Do`)
failures. -/

inductive GoErr where
  | badRequest            -- ErrBadRequest      "400 Bad Request"
  | unauthorized          -- ErrUnauthorized    "401 Unauthorized"
  | forbidden             -- ErrForbidden       "403 Forbidden"
  | tooManyRequests       -- ErrTooManyRequests "429 Too Many Requests"
  | internalServerError   -- ErrInternalServerError "500 Internal Server Error"
  | unknownStatusCode (code : Nat)  -- fmt.Errorf("Unknown status code %d", code)
  | errMsg (msg : String) -- ad-hoc errors.New(msg)
  | unmarshal             -- json.Unmarshal failure on the response body
  | transport             -- failure of the underlying http.Client.Do round trip
  deriving DecidableEq, Repr

/-! ## Response JSON shapes (client.go / authorizer.go) -/

/-- `IDTokenData` — response struct of the verify-id-token API.
The field `picutre` reproduces the source's spelling of the Go field `Picutre`
(json tag "picture"). -/
structure IDTokenData where
  iss : String
  sub : String
  aud : String
  exp : String
  nonce : String
  amr : List String
  name : String
  picutre : String
  email : String
  deriving DecidableEq, Repr

/-- `VerifyAccessTokenResponse` — response struct of the verify-access-token API. -/
structure VerifyAccessTokenResponse where
  scope : String
  clientID : String
  expiresIn : Int
  deriving DecidableEq, Repr

/-- `LINEProfile` — response struct of the get-user-profile API. -/
structure LINEProfile where
  userID : String
  displayName : String
  pictureURL : String
  statusMessage : String
  deriving DecidableEq, Repr

/-! ## HTTP requests and the provider boundary -/

def urlGetUserProfile : String := "https://api.line.me/v2/profile"
def urlVerifyAccessToken : String := "https://api.line.me/oauth2/v2.1/verify"
def urlVerifyIDToken : String := "https://api.line.me/oauth2/v2.1/verify"

/-- The observable content of an outbound `http.Request`: method, URL path,
headers, and the query parameters actually encoded into `URL.RawQuery`. -/
structure HttpRequest where
  method : String
  url : String
  headers : List (String × String)
  query : List (String × String)
  deriving DecidableEq, Repr

/-- A provider HTTP response as the client observes it: the status code and,
abstracting the raw bytes, the result of `json.Unmarshal` into the expected
shape (`none` when the body does not parse as that shape). -/
structure ProviderResponse (V : Type) where
  statusCode : Nat
  body : Option V
  deriving DecidableEq, Repr

/-- The external provider (`http.Client.Do`): maps the outbound request either
to a transport-level error or to a response. -/
abbrev Provider (V : Type) := HttpRequest → Except GoErr (ProviderResponse V)

/-- Tags recording which remote endpoint an outbound call went to. -/
inductive RemoteCall where
  | verifyIDToken
  | verifyAccessToken
  | getProfile
  deriving DecidableEq, Repr

/-- `bearerToken` (client.go:189, authorizer.go:297). -/
def bearerToken (token : String) : String := "Bearer " ++ token

/-- `errByStatusCode` (client.go:172, authorizer.go:280): the switch mapping a
non-200 status code to a sentinel error. -/
def errByStatusCode (statusCode : Nat) : GoErr :=
  if statusCode = 400 then .badRequest
  else if statusCode = 401 then .unauthorized
  else if statusCode = 403 then .forbidden
  else if statusCode = 429 then .tooManyRequests
  else if statusCode = 500 then .internalServerError
  else .unknownStatusCode statusCode

/-- `doRequestGetBody` (client.go:147): propagate a `client.Do` failure, map a
non-200 status through `errByStatusCode`, otherwise unmarshal the body. -/
def doRequestGetBody {V : Type} (res : Except GoErr (ProviderResponse V)) :
    Except GoErr V :=
  match res with
  | .error e => .error e
  | .ok r =>
    if r.statusCode ≠ 200 then .error (errByStatusCode r.statusCode)
    else
      match r.body with
      | none => .error .unmarshal
      | some v => .ok v

/-- Request built by `Client.VerifyIDToken` (client.go:62-72).
In the Go source, `req.URL.Query()` returns a *copy* of the parsed query
values; the three `Add` calls mutate only that copy and nothing is ever
encoded back into `req.URL.RawQuery`, so the outbound request keeps an empty
query string.  The dead `queryCopy` bindings mirror those discarded `Add`s. -/
def verifyIDTokenRequest (clientid idToken userid nonce : String) : HttpRequest :=
  let req : HttpRequest :=
    { method := "POST", url := urlVerifyIDToken
    , headers := [("Authorization", bearerToken idToken)], query := [] }
  let queryCopy := req.query ++ [("clientid", clientid), ("nonce", nonce)]
  let _queryCopy := if userid ≠ "" then queryCopy ++ [("userid", userid)] else queryCopy
  req

/-- Request built by `Client.VerifyAccessToken` (client.go:98-105).  Here the
copy returned by `req.URL.Query()` *is* written back via
`req.URL.RawQuery = params.Encode()`, so the parameter is attached. -/
def verifyAccessTokenRequest (accessToken : String) : HttpRequest :=
  { method := "GET", url := urlVerifyAccessToken
  , headers := [], query := [("access_token", accessToken)] }

/-- Request built by `Client.GetProfile` (client.go:132-137). -/
def getProfileRequest (accessToken : String) : HttpRequest :=
  { method := "GET", url := urlGetUserProfile
  , headers := [("Authorization", bearerToken accessToken)], query := [] }

/-- `Client.VerifyIDToken` (client.go:56-80).  Returns the operation result
together with the list of outbound remote calls it performed. -/
def VerifyIDToken (provider : Provider IDTokenData)
    (clientid idToken userid nonce : String) :
    Except GoErr IDTokenData × List RemoteCall :=
  if idToken = "" then (.error (.errMsg "ID Token not found"), [])
  else
    (doRequestGetBody (provider (verifyIDTokenRequest clientid idToken userid nonce)),
     [.verifyIDToken])

/-- `Client.VerifyAccessToken` (client.go:92-113). -/
def VerifyAccessToken (provider : Provider VerifyAccessTokenResponse)
    (accessToken : String) :
    Except GoErr VerifyAccessTokenResponse × List RemoteCall :=
  if accessToken = "" then (.error (.errMsg "Access Token not found"), [])
  else
    (doRequestGetBody (provider (verifyAccessTokenRequest accessToken)),
     [.verifyAccessToken])

/-- `Client.GetProfile` (client.go:126-145). -/
def GetProfile (provider : Provider LINEProfile) (accessToken : String) :
    Except GoErr LINEProfile × List RemoteCall :=
  if accessToken = "" then (.error (.errMsg "Access Token not found"), [])
  else
    (doRequestGetBody (provider (getProfileRequest accessToken)), [.getProfile])

/-! ## The bearer-token extractor

`extractBearerToken` (part_001:114) and `getTokenFromBearerToken`
(authorizer.go:301) both run `strings.Split(authHeader, "Bearer ")` and demand
exactly two parts.  Go's `strings.Split` with a non-empty separator cuts the
string at every leftmost non-overlapping occurrence of the separator; we model
it on `List Char` with an explicit fuel argument (the string length bounds the
number of cuts) so that the function stays structurally recursive. -/

/-- The literal separator `"Bearer "`. -/
def bearerSepChars : List Char := ['B', 'e', 'a', 'r', 'e', 'r', ' ']

/-- One step of rebuilding the current segment while splitting. -/
def consHead (c : Char) : List (List Char) → List (List Char)
  | [] => [[c]]
  | seg :: segs => (c :: seg) :: segs

/-- Fueled model of `strings.Split(s, "Bearer ")`: every recursive step
consumes at least one character, so fuel `s.length` is always sufficient and
the `0` case is never reached from `splitBearer`. -/
def splitBearerFuel : Nat → List Char → List (List Char)
  | 0, s => [s]
  | _ + 1, [] => [[]]
  | fuel + 1, c :: rest =>
    if bearerSepChars.isPrefixOf (c :: rest) then
      [] :: splitBearerFuel fuel (rest.drop 6)
    else
      consHead c (splitBearerFuel fuel rest)

/-- `strings.Split(s, "Bearer ")` on the character list `s`. -/
def splitBearer (s : List Char) : List (List Char) :=
  splitBearerFuel s.length s

/-- `extractBearerToken` (part_001:114-120): split on the literal `"Bearer "`
and require exactly two parts, returning the second (`arr[1]`). -/
def extractBearerToken (authHeader : String) : Except String String :=
  let arr := splitBearer authHeader.data
  if h : arr.length = 2 then .ok (String.mk (arr.get ⟨1, by omega⟩))
  else .error "not bearer"

/-- `getTokenFromBearerToken` (authorizer.go:301-307): the same split with a
different error message. -/
def getTokenFromBearerToken (bearer : String) : Except String String :=
  let arr := splitBearer bearer.data
  if h : arr.length = 2 then .ok (String.mk (arr.get ⟨1, by omega⟩))
  else .error "Failed to get token"

/-- `true` iff the separator `"Bearer "` occurs somewhere in `s`. -/
def hasBearerSep : List Char → Bool
  | [] => false
  | c :: rest => bearerSepChars.isPrefixOf (c :: rest) || hasBearerSep rest

/-! ## Middleware layer

A middleware run is modelled as a pure function of the inbound
`Authorization` header value (`""` models a missing header, as Go's
`r.Header.Get` returns `""` then) and a `ProviderOracle` standing for the
remote provider.  The observable outcome records the status code written by
`w.WriteHeader` (`none` when the middleware did not reject), the headers added
to the request, the outbound remote calls performed, and how many times the
wrapped handler (`next.ServeHTTP`) ran. -/

def HeaderKeyLINEUserID : String := "LINEUserID"
def HeaderKeyLINEDisplayName : String := "LINEDisplayName"
def HeaderKeyLINEPictureURL : String := "LINEPictureURL"
def HeaderKeyLINEEmail : String := "LINEEmail"
def HeaderKeyLINEStatusMessage : String := "LINEStatusMessage"

/-- The three provider endpoints as seen by one middleware run. -/
structure ProviderOracle where
  idToken : Provider IDTokenData
  accessToken : Provider VerifyAccessTokenResponse
  profile : Provider LINEProfile

/-- Observable outcome of one middleware invocation. -/
structure MwOutcome where
  status : Option Nat
  addedHeaders : List (String × String)
  remoteCalls : List RemoteCall
  handlerCalls : Nat
  deriving DecidableEq, Repr

/-- A rejection: `w.WriteHeader(code)` and return, without touching the
request headers or the wrapped handler. -/
def rejected (code : Nat) (calls : List RemoteCall) : MwOutcome :=
  { status := some code, addedHeaders := [], remoteCalls := calls, handlerCalls := 0 }

/-- `Authorizer.VerifyIDTokenMiddleware` (part_001:35-67).  The Go check after
the verify call is `err != nil || p == nil`; `Client.VerifyIDToken` returns a
nil pointer exactly when it returns an error, so the `Except` result covers
both disjuncts.  `clientid` is the client identifier configured on the
`Client` at construction, threaded into the verify call. -/
def Authorizer.VerifyIDTokenMiddleware (o : ProviderOracle)
    (clientid authHeader : String) : MwOutcome :=
  if authHeader = "" then rejected 401 []
  else
    match extractBearerToken authHeader with
    | .error _ => rejected 401 []
    | .ok idToken =>
      let r := VerifyIDToken o.idToken clientid idToken "" ""
      match r.1 with
      | .error _ => rejected 401 r.2
      | .ok p =>
        { status := none
        , addedHeaders :=
            [ (HeaderKeyLINEUserID, p.sub)
            , (HeaderKeyLINEDisplayName, p.name)
            , (HeaderKeyLINEPictureURL, p.picutre)
            , (HeaderKeyLINEEmail, p.email) ]
        , remoteCalls := r.2
        , handlerCalls := 1 }

/-- `Authorizer.VerifyAccessTokenMiddleware` (part_001:72-112).  Note that the
result of `VerifyAccessToken` is discarded (`if _, err := ...`): despite the
source comment "first verify access token to check client ID", no comparison
against a configured client identifier happens, and `clientid` is unused. -/
def Authorizer.VerifyAccessTokenMiddleware (o : ProviderOracle)
    (clientid authHeader : String) : MwOutcome :=
  if authHeader = "" then rejected 401 []
  else
    match extractBearerToken authHeader with
    | .error _ => rejected 401 []
    | .ok accessToken =>
      let rv := VerifyAccessToken o.accessToken accessToken
      match rv.1 with
      | .error _ => rejected 401 rv.2
      | .ok _ =>
        let rp := GetProfile o.profile accessToken
        match rp.1 with
        | .error _ => rejected 401 (rv.2 ++ rp.2)
        | .ok p =>
          { status := none
          , addedHeaders :=
              [ (HeaderKeyLINEUserID, p.userID)
              , (HeaderKeyLINEDisplayName, p.displayName)
              , (HeaderKeyLINEPictureURL, p.pictureURL)
              , (HeaderKeyLINEStatusMessage, p.statusMessage) ]
          , remoteCalls := rv.2 ++ rp.2
          , handlerCalls := 1 }

/-- `LINEAuthorizer.VerifyIDTokenMiddleware` (authorizer.go:64-92).  Header
problems are rejected with 400 here; `nonce` stands for the value the source
derives from the wall clock (`strconv.Itoa(int(time.Now().UnixNano()))`). -/
def LINEAuthorizer.VerifyIDTokenMiddleware (clientID : String)
    (o : ProviderOracle) (nonce authHeader : String) : MwOutcome :=
  if authHeader = "" then rejected 400 []
  else
    match getTokenFromBearerToken authHeader with
    | .error _ => rejected 400 []
    | .ok idToken =>
      let r := VerifyIDToken o.idToken clientID idToken "" nonce
      match r.1 with
      | .error _ => rejected 401 r.2
      | .ok p =>
        { status := none
        , addedHeaders :=
            [ (HeaderKeyLINEUserID, p.sub)
            , (HeaderKeyLINEDisplayName, p.name)
            , (HeaderKeyLINEPictureURL, p.picutre)
            , (HeaderKeyLINEEmail, p.email) ]
        , remoteCalls := r.2
        , handlerCalls := 1 }

/-- `LINEAuthorizer.VerifyAccessTokenMiddleware` (authorizer.go:144-184).
This variant does compare the returned client id against the configured one,
rejecting a mismatch with 400 before the profile fetch. -/
def LINEAuthorizer.VerifyAccessTokenMiddleware (clientID : String)
    (o : ProviderOracle) (authHeader : String) : MwOutcome :=
  if authHeader = "" then rejected 400 []
  else
    match getTokenFromBearerToken authHeader with
    | .error _ => rejected 400 []
    | .ok accessToken =>
      let rv := VerifyAccessToken o.accessToken accessToken
      match rv.1 with
      | .error _ => rejected 401 rv.2
      | .ok res =>
        if res.clientID ≠ clientID then rejected 400 rv.2
        else
          let rp := GetProfile o.profile accessToken
          match rp.1 with
          | .error _ => rejected 401 (rv.2 ++ rp.2)
          | .ok p =>
            { status := none
            , addedHeaders :=
                [ (HeaderKeyLINEUserID, p.userID)
                , (HeaderKeyLINEDisplayName, p.displayName)
                , (HeaderKeyLINEPictureURL, p.pictureURL)
                , (HeaderKeyLINEStatusMessage, p.statusMessage) ]
            , remoteCalls := rv.2 ++ rp.2
            , handlerCalls := 1 }

/-! ## Lemmas about the split -/

theorem isPrefixOf_append_self (l t : List Char) :
    l.isPrefixOf (l ++ t) = true := by
  induction l with
  | nil => simp
  | cons a as ih => simp [List.isPrefixOf, ih]

theorem splitBearerFuel_no_sep (fuel : Nat) (s : List Char)
    (h : hasBearerSep s = false) : splitBearerFuel fuel s = [s] := by
  induction fuel generalizing s with
  | zero => rfl
  | succ fuel ih =>
    cases s with
    | nil => rfl
    | cons c rest =>
      rw [hasBearerSep, Bool.or_eq_false_iff] at h
      rw [splitBearerFuel, if_neg (by simp [h.1]), ih rest h.2, consHead]

theorem splitBearer_no_sep (s : List Char) (h : hasBearerSep s = false) :
    splitBearer s = [s] :=
  splitBearerFuel_no_sep s.length s h

theorem splitBearerFuel_sep_append (fuel : Nat) (t : List Char)
    (h : hasBearerSep t = false) :
    splitBearerFuel (fuel + 1) (bearerSepChars ++ t) = [[], t] := by
  have e1 : bearerSepChars ++ t = 'B' :: (['e', 'a', 'r', 'e', 'r', ' '] ++ t) := rfl
  have hp : bearerSepChars.isPrefixOf ('B' :: (['e', 'a', 'r', 'e', 'r', ' '] ++ t)) = true := by
    rw [← e1]; exact isPrefixOf_append_self _ _
  have e2 : (['e', 'a', 'r', 'e', 'r', ' '] ++ t).drop 6 = t := rfl
  rw [e1, splitBearerFuel, if_pos hp, e2, splitBearerFuel_no_sep fuel t h]

theorem splitBearer_sep_append (t : List Char) (h : hasBearerSep t = false) :
    splitBearer (bearerSepChars ++ t) = [[], t] := by
  have hlen : (bearerSepChars ++ t).length = t.length + 7 := by
    simp [bearerSepChars]
  rw [splitBearer, hlen]
  exact splitBearerFuel_sep_append (t.length + 6) t h

/-- The two-part characterization of extraction: it succeeds exactly when the
split yields two parts, and returns the second part. -/
theorem extractBearerToken_eq_dite (s : String) :
    extractBearerToken s =
      if h : (splitBearer s.data).length = 2 then
        .ok (String.mk ((splitBearer s.data).get ⟨1, by omega⟩))
      else .error "not bearer" := rfl

theorem extractBearerToken_ok_iff (h tok : String) :
    extractBearerToken h = .ok tok ↔
      ∃ a : List Char, splitBearer h.data = [a, tok.data] := by
  rw [extractBearerToken_eq_dite]
  constructor
  · intro he
    split at he
    case isTrue hl =>
      obtain ⟨a, b, hab⟩ := List.length_eq_two.mp hl
      refine ⟨a, ?_⟩
      rw [hab]
      simp only [Except.ok.injEq] at he
      have : (splitBearer h.data).get ⟨1, by omega⟩ = b := by simp [hab]
      rw [this] at he
      rw [← he]
    case isFalse => exact absurd he (by simp)
  · rintro ⟨a, ha⟩
    have hl : (splitBearer h.data).length = 2 := by rw [ha]; rfl
    rw [dif_pos hl]
    have : (splitBearer h.data).get ⟨1, by omega⟩ = tok.data := by simp [ha]
    rw [this]

/-- Successful round trip through `bearerToken` for any token in which the
separator `"Bearer "` does not occur. -/
theorem extract_bearerToken_round (t : String) (h : hasBearerSep t.data = false) :
    extractBearerToken (bearerToken t) = .ok t := by
  rw [extractBearerToken_ok_iff]
  refine ⟨[], ?_⟩
  have hd : (bearerToken t).data = bearerSepChars ++ t.data := by
    rw [bearerToken, String.data_append]; rfl
  rw [hd, splitBearer_sep_append t.data h]

/-! ## C3 — bearer extraction contract -/

/-- C3 counterexample: the claim says a header value lacking the `"Bearer "`
prefix always fails extraction, but `"xBearer tok"` lacks the prefix, splits
into exactly two parts, and extraction succeeds returning `"tok"`. -/
theorem c3_counterexample :
    bearerSepChars.isPrefixOf (String.data "xBearer tok") = false
    ∧ extractBearerToken "xBearer tok" = .ok "tok" :=
  ⟨by decide, by rfl⟩

/-- C3 amended: extraction succeeds exactly when splitting the header on the
literal separator `"Bearer "` yields exactly two parts, and then returns the
second part; the empty header and any header with zero or two-or-more
separator occurrences fail, and every well-formed `"Bearer " ++ t` header with
no further separator occurrence in `t` yields exactly `t` — but a header
lacking the prefix may still succeed when the separator occurs exactly once
in its interior. -/
theorem c3_amended_extract_contract :
    (∀ t : String, hasBearerSep t.data = false →
        extractBearerToken (bearerToken t) = .ok t)
    ∧ extractBearerToken "" = .error "not bearer"
    ∧ (∀ h : String, (splitBearer h.data).length ≠ 2 →
        extractBearerToken h = .error "not bearer")
    ∧ (∀ h tok : String, extractBearerToken h = .ok tok ↔
        ∃ a : List Char, splitBearer h.data = [a, tok.data]) := by
  refine ⟨extract_bearerToken_round, rfl, ?_, extractBearerToken_ok_iff⟩
  intro h hne
  rw [extractBearerToken_eq_dite, dif_neg hne]

/-- C3 witness: the amended contract evaluated at `"tok"` (success side) and
at the prefixless one-part header `"Bearer"` (failure side). -/
theorem c3_amended_witness :
    (hasBearerSep (String.data "tok") = false
      ∧ extractBearerToken (bearerToken "tok") = .ok "tok")
    ∧ ((splitBearer (String.data "Bearer")).length ≠ 2
      ∧ extractBearerToken "Bearer" = .error "not bearer") :=
  ⟨⟨by decide, c3_amended_extract_contract.1 "tok" (by decide)⟩,
   ⟨by decide, c3_amended_extract_contract.2.2.1 "Bearer" (by decide)⟩⟩

/-! ## C10 — round trip of bearer formatting and extraction -/

/-- C10: for every token `t` in which the separator `"Bearer "` does not
occur (the empty string included), extracting from the formatted header
returns exactly `t`: `extractBearerToken (bearerToken t) = t`. -/
theorem c10_bearer_roundtrip (t : String) (h : hasBearerSep t.data = false) :
    extractBearerToken (bearerToken t) = .ok t :=
  extract_bearerToken_round t h

/-- C10 witness: the round trip evaluated at `"tok"` and at `""`. -/
theorem c10_bearer_roundtrip_witness :
    (hasBearerSep (String.data "tok") = false
      ∧ extractBearerToken (bearerToken "tok") = .ok "tok")
    ∧ (hasBearerSep (String.data "") = false
      ∧ extractBearerToken (bearerToken "") = .ok "") :=
  ⟨⟨by decide, c10_bearer_roundtrip "tok" (by decide)⟩,
   ⟨by decide, c10_bearer_roundtrip "" (by decide)⟩⟩

/-! ## C4 — VerifyIDToken request construction -/

/-- Sample parsed claims used to exercise the 200 path. -/
def exIDTokenData : IDTokenData :=
  { iss := "https://access.line.me", sub := "U123", aud := "c", exp := "1504169092"
  , nonce := "n", amr := ["pwd"], name := "Alice", picutre := "pic", email := "a@e" }

/-- C4: at the failing input (clientid `"c"`, token `"tok"`, userid `"u"`,
nonce `"n"`) the request built by `Client.VerifyIDToken` carries the token as
a bearer credential, but — because `req.URL.Query()` returns a copy that is
never encoded back — it carries *no* query parameters at all, contrary to the
claim that clientid, nonce and userid are attached; the Claims are indeed
returned from the parsed JSON body on HTTP 200. -/
theorem c4_id_token_request_drops_params :
    verifyIDTokenRequest "c" "tok" "u" "n" =
      { method := "POST", url := urlVerifyIDToken
      , headers := [("Authorization", "Bearer tok")], query := [] }
    ∧ (verifyIDTokenRequest "c" "tok" "u" "n").query = []
    ∧ (VerifyIDToken (fun _ => .ok ⟨200, some exIDTokenData⟩) "c" "tok" "u" "n").1 =
        .ok exIDTokenData :=
  ⟨rfl, rfl, rfl⟩

/-! ## C7 — status-code-to-error mapping -/

/-- C7: each of the three client operations maps a non-200 provider status
deterministically through `errByStatusCode` (400/401/403/429/500 to the five
sentinel errors, anything else to the unknown-status error carrying the code)
and returns no parsed payload, and a 200 response whose body does not
unmarshal as the expected shape fails with the unmarshal error. -/
theorem c7_status_mapping :
    errByStatusCode 400 = .badRequest
    ∧ errByStatusCode 401 = .unauthorized
    ∧ errByStatusCode 403 = .forbidden
    ∧ errByStatusCode 429 = .tooManyRequests
    ∧ errByStatusCode 500 = .internalServerError
    ∧ (∀ code : Nat, code ≠ 400 → code ≠ 401 → code ≠ 403 → code ≠ 429 →
        code ≠ 500 → errByStatusCode code = .unknownStatusCode code)
    ∧ (∀ (clientid tok userid nonce : String) (status : Nat) (body : Option IDTokenData),
        tok ≠ "" → status ≠ 200 →
        (VerifyIDToken (fun _ => .ok ⟨status, body⟩) clientid tok userid nonce).1 =
          .error (errByStatusCode status))
    ∧ (∀ (tok : String) (status : Nat) (body : Option VerifyAccessTokenResponse),
        tok ≠ "" → status ≠ 200 →
        (VerifyAccessToken (fun _ => .ok ⟨status, body⟩) tok).1 =
          .error (errByStatusCode status))
    ∧ (∀ (tok : String) (status : Nat) (body : Option LINEProfile),
        tok ≠ "" → status ≠ 200 →
        (GetProfile (fun _ => .ok ⟨status, body⟩) tok).1 =
          .error (errByStatusCode status))
    ∧ (∀ (clientid tok userid nonce : String), tok ≠ "" →
        (VerifyIDToken (fun _ => .ok ⟨200, none⟩) clientid tok userid nonce).1 =
          .error .unmarshal)
    ∧ (∀ tok : String, tok ≠ "" →
        (VerifyAccessToken (fun _ => .ok ⟨200, none⟩) tok).1 = .error .unmarshal)
    ∧ (∀ tok : String, tok ≠ "" →
        (GetProfile (fun _ => .ok ⟨200, none⟩) tok).1 = .error .unmarshal) := by
  refine ⟨rfl, rfl, rfl, rfl, rfl, ?_, ?_, ?_, ?_, ?_, ?_, ?_⟩
  · intro code h1 h2 h3 h4 h5
    simp [errByStatusCode, h1, h2, h3, h4, h5]
  · intro clientid tok userid nonce status body htok hst
    simp [VerifyIDToken, doRequestGetBody, htok, hst]
  · intro tok status body htok hst
    simp [VerifyAccessToken, doRequestGetBody, htok, hst]
  · intro tok status body htok hst
    simp [GetProfile, doRequestGetBody, htok, hst]
  · intro clientid tok userid nonce htok
    simp [VerifyIDToken, doRequestGetBody, htok]
  · intro tok htok
    simp [VerifyAccessToken, doRequestGetBody, htok]
  · intro tok htok
    simp [GetProfile, doRequestGetBody, htok]

/-- C7 witness: the mapping evaluated at status 403 and at a 200 response
with an unparseable body, for `VerifyAccessToken` with token `"tok"`. -/
theorem c7_status_mapping_witness :
    (("tok" : String) ≠ "" ∧ (403 : Nat) ≠ 200)
    ∧ (VerifyAccessToken (fun _ => .ok ⟨403, none⟩) "tok").1 =
        .error (errByStatusCode 403)
    ∧ (VerifyAccessToken (fun _ => .ok ⟨200, none⟩) "tok").1 = .error .unmarshal :=
  ⟨⟨by decide, by decide⟩,
   c7_status_mapping.2.2.2.2.2.2.2.1 "tok" 403 none (by decide) (by decide),
   c7_status_mapping.2.2.2.2.2.2.2.2.2.2.1 "tok" (by decide)⟩

/-! ## C8 — empty-credential precondition -/

/-- C8: with an empty token each of the three client operations fails with
its empty-credential error and performs no outbound HTTP call (the recorded
remote-call list is empty), whatever the provider would answer. -/
theorem c8_empty_credential (providerIT : Provider IDTokenData)
    (providerAT : Provider VerifyAccessTokenResponse)
    (providerP : Provider LINEProfile) (clientid userid nonce : String) :
    VerifyIDToken providerIT clientid "" userid nonce =
      (.error (.errMsg "ID Token not found"), [])
    ∧ VerifyAccessToken providerAT "" = (.error (.errMsg "Access Token not found"), [])
    ∧ GetProfile providerP "" = (.error (.errMsg "Access Token not found"), []) :=
  ⟨rfl, rfl, rfl⟩

/-! ## C9 — idempotence without caching -/

/-- C9: verifying the same valid token twice in sequence against a stable
provider yields the same claims/profile content both times, and each
invocation performs exactly one fresh outbound call (two independent calls in
total).  The client holds no mutable state, so a second invocation is another
application of the same function to the same provider. -/
theorem c9_idempotent_no_cache (providerIT : Provider IDTokenData)
    (providerAT : Provider VerifyAccessTokenResponse)
    (providerP : Provider LINEProfile) (clientid tok userid nonce : String)
    (d : IDTokenData) (res : VerifyAccessTokenResponse) (p : LINEProfile)
    (htok : tok ≠ "")
    (hIT : providerIT (verifyIDTokenRequest clientid tok userid nonce) = .ok ⟨200, some d⟩)
    (hAT : providerAT (verifyAccessTokenRequest tok) = .ok ⟨200, some res⟩)
    (hP : providerP (getProfileRequest tok) = .ok ⟨200, some p⟩) :
    (let first := VerifyIDToken providerIT clientid tok userid nonce
     let second := VerifyIDToken providerIT clientid tok userid nonce
     first.1 = second.1 ∧ first.1 = .ok d
       ∧ first.2 ++ second.2 = [.verifyIDToken, .verifyIDToken])
    ∧ (let first := VerifyAccessToken providerAT tok
       let second := VerifyAccessToken providerAT tok
       first.1 = second.1 ∧ first.1 = .ok res
         ∧ first.2 ++ second.2 = [.verifyAccessToken, .verifyAccessToken])
    ∧ (let first := GetProfile providerP tok
       let second := GetProfile providerP tok
       first.1 = second.1 ∧ first.1 = .ok p
         ∧ first.2 ++ second.2 = [.getProfile, .getProfile]) := by
  refine ⟨⟨rfl, ?_, ?_⟩, ⟨rfl, ?_, ?_⟩, ⟨rfl, ?_, ?_⟩⟩
  · simp [VerifyIDToken, doRequestGetBody, htok, hIT]
  · simp [VerifyIDToken, htok]
  · simp [VerifyAccessToken, doRequestGetBody, htok, hAT]
  · simp [VerifyAccessToken, htok]
  · simp [GetProfile, doRequestGetBody, htok, hP]
  · simp [GetProfile, htok]

/-- C9 witness: both invocations evaluated against a concrete stable provider
answering 200 with a fixed body for token `"tok"`. -/
theorem c9_idempotent_witness :
    let d := exIDTokenData
    let res : VerifyAccessTokenResponse :=
      { scope := "profile", clientID := "c", expiresIn := 2591659 }
    let p : LINEProfile :=
      { userID := "U123", displayName := "Alice", pictureURL := "pic", statusMessage := "st" }
    (let first := VerifyIDToken (fun _ => .ok ⟨200, some d⟩) "c" "tok" "u" "n"
     let second := VerifyIDToken (fun _ => .ok ⟨200, some d⟩) "c" "tok" "u" "n"
     first.1 = second.1 ∧ first.1 = .ok d
       ∧ first.2 ++ second.2 = [.verifyIDToken, .verifyIDToken])
    ∧ (let first := VerifyAccessToken (fun _ => .ok ⟨200, some res⟩) "tok"
       let second := VerifyAccessToken (fun _ => .ok ⟨200, some res⟩) "tok"
       first.1 = second.1 ∧ first.1 = .ok res
         ∧ first.2 ++ second.2 = [.verifyAccessToken, .verifyAccessToken])
    ∧ (let first := GetProfile (fun _ => .ok ⟨200, some p⟩) "tok"
       let second := GetProfile (fun _ => .ok ⟨200, some p⟩) "tok"
       first.1 = second.1 ∧ first.1 = .ok p
         ∧ first.2 ++ second.2 = [.getProfile, .getProfile]) :=
  c9_idempotent_no_cache (fun _ => .ok ⟨200, some exIDTokenData⟩)
    (fun _ => .ok ⟨200, some { scope := "profile", clientID := "c", expiresIn := 2591659 }⟩)
    (fun _ => .ok ⟨200, some { userID := "U123", displayName := "Alice"
                             , pictureURL := "pic", statusMessage := "st" }⟩)
    "c" "tok" "u" "n" _ _ _ (by decide) rfl rfl rfl

/-! ## C5 — atomicity of identity propagation -/

/-- C5: on either goline middleware, each request either passes every
verification step — and then all four identity headers are set and the
wrapped handler runs exactly once — or some step fails — and then no header
is set, the handler never runs, and the request is rejected with 401.  No
claims or profile values ever reach the handler after a failed verification,
since the failure branches add no headers. -/
theorem c5_atomicity (o : ProviderOracle) (clientid authHeader : String) :
    ((let out := Authorizer.VerifyIDTokenMiddleware o clientid authHeader
      (out.status = none ∧ out.handlerCalls = 1
        ∧ out.addedHeaders.map Prod.fst =
            [HeaderKeyLINEUserID, HeaderKeyLINEDisplayName,
             HeaderKeyLINEPictureURL, HeaderKeyLINEEmail])
      ∨ (out.status = some 401 ∧ out.handlerCalls = 0 ∧ out.addedHeaders = []))
    ∧ (let out := Authorizer.VerifyAccessTokenMiddleware o clientid authHeader
       (out.status = none ∧ out.handlerCalls = 1
         ∧ out.addedHeaders.map Prod.fst =
             [HeaderKeyLINEUserID, HeaderKeyLINEDisplayName,
              HeaderKeyLINEPictureURL, HeaderKeyLINEStatusMessage])
       ∨ (out.status = some 401 ∧ out.handlerCalls = 0 ∧ out.addedHeaders = []))) := by
  constructor
  · unfold Authorizer.VerifyIDTokenMiddleware
    split
    · exact Or.inr ⟨rfl, rfl, rfl⟩
    · split
      · exact Or.inr ⟨rfl, rfl, rfl⟩
      · dsimp only
        split
        · exact Or.inr ⟨rfl, rfl, rfl⟩
        · exact Or.inl ⟨rfl, rfl, rfl⟩
  · unfold Authorizer.VerifyAccessTokenMiddleware
    split
    · exact Or.inr ⟨rfl, rfl, rfl⟩
    · split
      · exact Or.inr ⟨rfl, rfl, rfl⟩
      · dsimp only
        split
        · exact Or.inr ⟨rfl, rfl, rfl⟩
        · split
          · exact Or.inr ⟨rfl, rfl, rfl⟩
          · exact Or.inl ⟨rfl, rfl, rfl⟩

/-! ## C6 — missing Authorization header -/

/-- A provider oracle used only to instantiate middleware counterexamples. -/
def nullOracle : ProviderOracle :=
  { idToken := fun _ => .ok ⟨200, none⟩
  , accessToken := fun _ => .ok ⟨200, none⟩
  , profile := fun _ => .ok ⟨200, none⟩ }

/-- C6 counterexample: the claim says every middleware rejects a missing
`Authorization` header with 401, but the `LINEAuthorizer` variant
(authorizer.go) writes 400 Bad Request. -/
theorem c6_counterexample :
    (LINEAuthorizer.VerifyIDTokenMiddleware "cid" nullOracle "n" "").status = some 400
    ∧ some 400 ≠ some 401 :=
  ⟨rfl, by decide⟩

/-- C6 amended: a missing or empty `Authorization` header is always rejected
before any remote call (no outbound calls recorded) and the wrapped handler
never runs; the goline middlewares reject with 401 while the historic
`LINEAuthorizer` middlewares reject with 400. -/
theorem c6_amended_missing_header (o : ProviderOracle) (clientID nonce : String) :
    Authorizer.VerifyIDTokenMiddleware o clientID "" =
      { status := some 401, addedHeaders := [], remoteCalls := [], handlerCalls := 0 }
    ∧ Authorizer.VerifyAccessTokenMiddleware o clientID "" =
      { status := some 401, addedHeaders := [], remoteCalls := [], handlerCalls := 0 }
    ∧ LINEAuthorizer.VerifyIDTokenMiddleware clientID o nonce "" =
      { status := some 400, addedHeaders := [], remoteCalls := [], handlerCalls := 0 }
    ∧ LINEAuthorizer.VerifyAccessTokenMiddleware clientID o "" =
      { status := some 400, addedHeaders := [], remoteCalls := [], handlerCalls := 0 } :=
  ⟨rfl, rfl, rfl, rfl⟩

/-! ## C2 — identity-token path and the empty subject -/

/-- Parsed claims whose subject is the empty string (e.g. the JSON body `{}`
unmarshals to the zero value of every field). -/
def emptySubData : IDTokenData :=
  { iss := "", sub := "", aud := "", exp := ""
  , nonce := "", amr := [], name := "Alice", picutre := "", email := "" }

/-- Oracle whose verify-id-token endpoint answers 200 with claims whose
subject is empty. -/
def emptySubOracle : ProviderOracle :=
  { idToken := fun _ => .ok ⟨200, some emptySubData⟩
  , accessToken := fun _ => .ok ⟨200, none⟩
  , profile := fun _ => .ok ⟨200, none⟩ }

/-- C2 counterexample: the claim says a verification result with an empty
subject is rejected with 401, but the middleware only checks for an error (or
nil result): with `sub = ""` it injects the headers — `LINEUserID` as the
empty string — and invokes the wrapped handler once instead of rejecting. -/
theorem c2_counterexample :
    emptySubData.sub = ""
    ∧ Authorizer.VerifyIDTokenMiddleware emptySubOracle "cid" "Bearer tok" =
        { status := none
        , addedHeaders := [("LINEUserID", ""), ("LINEDisplayName", "Alice"),
            ("LINEPictureURL", ""), ("LINEEmail", "")]
        , remoteCalls := [.verifyIDToken]
        , handlerCalls := 1 } :=
  ⟨rfl, rfl⟩

/-- C2 amended: on the identity-token middleware a `VerifyIDToken` error is
rejected with 401 without invoking the wrapped handler, and a successful
verification — even one whose subject is the empty string — injects the four
headers LINEUserID=subject, LINEDisplayName=name, LINEPictureURL=picture,
LINEEmail=email (absent optional fields propagated as empty strings) and
invokes the handler once. -/
theorem c2_amended_id_token_path (o : ProviderOracle)
    (clientid authHeader tok : String) (d : IDTokenData) (e : GoErr) :
    (authHeader ≠ "" → extractBearerToken authHeader = .ok tok → tok ≠ "" →
      o.idToken (verifyIDTokenRequest clientid tok "" "") = .ok ⟨200, some d⟩ →
      Authorizer.VerifyIDTokenMiddleware o clientid authHeader =
        { status := none
        , addedHeaders := [(HeaderKeyLINEUserID, d.sub), (HeaderKeyLINEDisplayName, d.name),
            (HeaderKeyLINEPictureURL, d.picutre), (HeaderKeyLINEEmail, d.email)]
        , remoteCalls := [.verifyIDToken]
        , handlerCalls := 1 })
    ∧ (authHeader ≠ "" → extractBearerToken authHeader = .ok tok → tok ≠ "" →
      (VerifyIDToken o.idToken clientid tok "" "").1 = .error e →
      Authorizer.VerifyIDTokenMiddleware o clientid authHeader =
        { status := some 401, addedHeaders := []
        , remoteCalls := [.verifyIDToken], handlerCalls := 0 }) := by
  constructor
  · intro hne hx htok hor
    simp [Authorizer.VerifyIDTokenMiddleware, VerifyIDToken, doRequestGetBody,
      hne, hx, htok, hor, rejected]
  · intro hne hx htok herr
    rw [VerifyIDToken, if_neg htok] at herr
    simp only at herr
    simp [Authorizer.VerifyIDTokenMiddleware, VerifyIDToken,
      hne, hx, htok, herr, rejected]

/-- C2 witness: the amended success side evaluated at the oracle returning
subject `"U123"`, and the failure side at an oracle answering 401. -/
theorem c2_amended_witness :
    (("Bearer tok" : String) ≠ ""
      ∧ extractBearerToken "Bearer tok" = .ok "tok"
      ∧ ("tok" : String) ≠ ""
      ∧ (fun (_ : HttpRequest) =>
          (.ok ⟨200, some exIDTokenData⟩ : Except GoErr (ProviderResponse IDTokenData)))
            (verifyIDTokenRequest "c" "tok" "" "") = .ok ⟨200, some exIDTokenData⟩
      ∧ Authorizer.VerifyIDTokenMiddleware
          { idToken := fun _ => .ok ⟨200, some exIDTokenData⟩
          , accessToken := fun _ => .ok ⟨200, none⟩
          , profile := fun _ => .ok ⟨200, none⟩ } "c" "Bearer tok" =
          { status := none
          , addedHeaders := [(HeaderKeyLINEUserID, exIDTokenData.sub),
              (HeaderKeyLINEDisplayName, exIDTokenData.name),
              (HeaderKeyLINEPictureURL, exIDTokenData.picutre),
              (HeaderKeyLINEEmail, exIDTokenData.email)]
          , remoteCalls := [.verifyIDToken]
          , handlerCalls := 1 })
    ∧ (Authorizer.VerifyIDTokenMiddleware
          { idToken := fun _ => .ok ⟨401, none⟩
          , accessToken := fun _ => .ok ⟨200, none⟩
          , profile := fun _ => .ok ⟨200, none⟩ } "c" "Bearer tok" =
          { status := some 401, addedHeaders := []
          , remoteCalls := [.verifyIDToken], handlerCalls := 0 }) :=
  ⟨⟨by decide, by rfl, by decide, rfl,
    (c2_amended_id_token_path _ "c" "Bearer tok" "tok" exIDTokenData .unauthorized).1
      (by decide) (by rfl) (by decide) rfl⟩,
   (c2_amended_id_token_path _ "c" "Bearer tok" "tok" exIDTokenData .unauthorized).2
      (by decide) (by rfl) (by decide) rfl⟩

/-! ## C1 — access-token path client-identifier gate -/

/-- Oracle for the mismatch scenario: the provider reports the access token
was issued for client `"expected"` and serves a profile. -/
def mismatchOracle : ProviderOracle :=
  { idToken := fun _ => .ok ⟨200, none⟩
  , accessToken := fun _ =>
      .ok ⟨200, some { scope := "profile", clientID := "expected", expiresIn := 2591659 }⟩
  , profile := fun _ =>
      .ok ⟨200, some { userID := "U1", displayName := "Alice"
                     , pictureURL := "pic", statusMessage := "st" }⟩ }

/-- C1: behavior at the failing input.  With the middleware configured for
client `"other"` while `VerifyAccessToken` succeeds reporting client
`"expected"`, the goline access-token middleware (part_001) — whose own
comment says "first verify access token to check client ID" — performs no
client-identifier comparison at all: it goes on to call `GetProfile` and
accepts the request, instead of rejecting with 401 without a `GetProfile`
call as the claim states.  The historic `LINEAuthorizer` variant does gate
`GetProfile` on the comparison, but rejects the mismatch with 400, not 401. -/
theorem c1_code_behavior :
    Authorizer.VerifyAccessTokenMiddleware mismatchOracle "other" "Bearer tok" =
      { status := none
      , addedHeaders := [("LINEUserID", "U1"), ("LINEDisplayName", "Alice"),
          ("LINEPictureURL", "pic"), ("LINEStatusMessage", "st")]
      , remoteCalls := [.verifyAccessToken, .getProfile]
      , handlerCalls := 1 }
    ∧ LINEAuthorizer.VerifyAccessTokenMiddleware "other" mismatchOracle "Bearer tok" =
      { status := some 400, addedHeaders := []
      , remoteCalls := [.verifyAccessToken], handlerCalls := 0 } :=
  ⟨rfl, rfl⟩
